import Mathlib

/-!
Shallow embedding of the real-time chat system's delivery core:
the API message routes (`apps/api/src/routes/messages.ts`), the
conversation-listing unread recomputation
(`apps/api/src/routes/conversations.ts`), the presence service
(`apps/presence/src/index.ts`), the WebSocket gateway
(`apps/ws-gateway/src/index.ts`) and the inbox worker
(`apps/inbox-worker/src/index.ts`).

Timestamps are modelled as `Nat` (ISO strings in the source are a
faithful injective image of instants).  Database tables are modelled as
lists of rows; row updates keyed by a unique key update the first
matching row, mirroring the uniqueness constraint of the schema.
-/

namespace ChatCore

/-- A row of the `messages` table (fields used by the core paths). -/
structure Message where
  id : String
  conversationId : String
  senderId : String
  body : String
  createdAt : Nat
deriving DecidableEq

/-- A row of the `inboxes` table: per (user, conversation) unread
counter.  `unreadCount` is an `Int` so that "never negative" is a real
statement about the values the code writes. -/
structure InboxEntry where
  userId : String
  conversationId : String
  unreadCount : Int
  lastMessageId : Option String
deriving DecidableEq

/-- A row of the `read_receipts` table (the columns the listing path
reads). -/
structure ReadReceipt where
  messageId : String
  userId : String
deriving DecidableEq

/-- Payload of a `message.created` Kafka event, from
`packages/shared/src/types.ts` (`MessageCreatedEvent`). -/
structure MessageCreatedData where
  id : String
  conversationId : String
  senderId : String
  body : String
  encrypted : Bool
  keyVersion : Option Nat
  createdAt : Nat
deriving DecidableEq

/-- The Kafka event union of `packages/shared/src/types.ts`, plus an
`unknown` constructor: consumed messages are JSON-parsed with a type
cast, so an event whose `type` tag is outside the closed enumeration
still reaches the handlers and lands in their default branch. -/
inductive KEvent where
  | messageCreated (d : MessageCreatedData)
  | messageRead (messageId conversationId userId : String) (readAt : Nat)
  | conversationUpdated (id ty : String) (name : Option String) (updatedAt : Nat)
  | presenceChanged (userId status : String) (timestamp : Nat)
  | unknown (kind : String)
deriving DecidableEq

/-- Membership test mirroring
`prisma.participant.findUnique({ conversationId, userId })`:
`parts` is the participant table as (conversationId, userId) rows. -/
def isParticipant (parts : List (String × String)) (convId userId : String) : Bool :=
  parts.any (fun p => p.1 == convId && p.2 == userId)

/-- The `prisma.inbox.upsert` of the send-message route
(`messages.ts` lines 146-169): the row keyed by (userId,
conversationId) gets `unreadCount` incremented by 1 and
`lastMessageId` set; if no row exists one is created with
`unreadCount = 1`.  The increment is unconditional: the source checks
no sequence number. -/
def inboxUpsert : List InboxEntry → String → String → String → List InboxEntry
  | [], u, c, m => [⟨u, c, 1, some m⟩]
  | e :: es, u, c, m =>
    if e.userId = u ∧ e.conversationId = c then
      { e with unreadCount := e.unreadCount + 1, lastMessageId := some m } :: es
    else
      e :: inboxUpsert es u c m

/-- The stored unread counter for (user, conversation): the value of
the unique matching `inboxes` row, 0 when no row exists. -/
def storedUnread : List InboxEntry → String → String → Int
  | [], _, _ => 0
  | e :: es, u, c =>
    if e.userId = u ∧ e.conversationId = c then e.unreadCount
    else storedUnread es u c

/-- The full inbox effect of one send (`messages.ts` lines 139-169):
the participants of the conversation other than the sender are fetched
and each one's inbox row is upserted. -/
def applyMessageCreated (ibs : List InboxEntry) (parts : List (String × String))
    (convId senderId msgId : String) : List InboxEntry :=
  ((parts.filter (fun p => p.1 == convId && p.2 != senderId)).map (fun p => p.2)).foldl
    (fun acc r => inboxUpsert acc r convId msgId) ibs

/-- The recipients of one send that match a given user: how many times
that user's row is upserted by `applyMessageCreated`. -/
def recipCount (parts : List (String × String)) (convId senderId u : String) : Nat :=
  (((parts.filter (fun p => p.1 == convId && p.2 != senderId)).map (fun p => p.2)).filter
    (fun r => r == u)).length

theorem storedUnread_inboxUpsert_same (ibs : List InboxEntry) (u c m : String) :
    storedUnread (inboxUpsert ibs u c m) u c = storedUnread ibs u c + 1 := by
  induction ibs with
  | nil => simp [inboxUpsert, storedUnread]
  | cons e es ih =>
    by_cases h : e.userId = u ∧ e.conversationId = c
    · simp [inboxUpsert, storedUnread, h]
    · simp [inboxUpsert, storedUnread, h, ih]

theorem storedUnread_inboxUpsert_other (ibs : List InboxEntry) (u c v m : String)
    (h : v ≠ u) :
    storedUnread (inboxUpsert ibs v c m) u c = storedUnread ibs u c := by
  induction ibs with
  | nil => simp [inboxUpsert, storedUnread, h]
  | cons e es ih =>
    by_cases hv : e.userId = v ∧ e.conversationId = c
    · have hu : ¬ (e.userId = u ∧ e.conversationId = c) := by
        intro hc
        exact h (hv.1.symm.trans hc.1)
      simp [inboxUpsert, storedUnread, hv, hu, h, Ne.symm h]
    · by_cases hu : e.userId = u ∧ e.conversationId = c
      · simp [inboxUpsert, storedUnread, hv, hu, h, Ne.symm h]
      · simp [inboxUpsert, storedUnread, hv, hu, ih]

/-- Folding upserts for a list of recipient user ids. -/
def upsertAll (ibs : List InboxEntry) (rs : List String) (c m : String) : List InboxEntry :=
  rs.foldl (fun acc r => inboxUpsert acc r c m) ibs

theorem storedUnread_upsertAll (rs : List String) (ibs : List InboxEntry) (u c m : String) :
    storedUnread (upsertAll ibs rs c m) u c
      = storedUnread ibs u c + (rs.filter (fun r => r == u)).length := by
  induction rs generalizing ibs with
  | nil => simp [upsertAll]
  | cons r rs ih =>
    have hstep : upsertAll ibs (r :: rs) c m = upsertAll (inboxUpsert ibs r c m) rs c m := rfl
    rw [hstep, ih]
    by_cases h : r = u
    · subst h
      rw [storedUnread_inboxUpsert_same]
      simp [List.filter_cons]
      omega
    · rw [storedUnread_inboxUpsert_other ibs u c r m h]
      simp [List.filter_cons, h]

theorem applyMessageCreated_eq_upsertAll (ibs : List InboxEntry)
    (parts : List (String × String)) (c a m : String) :
    applyMessageCreated ibs parts c a m
      = upsertAll ibs ((parts.filter (fun p => p.1 == c && p.2 != a)).map (fun p => p.2)) c m := rfl

theorem storedUnread_applyMessageCreated (ibs : List InboxEntry)
    (parts : List (String × String)) (c a m u : String) :
    storedUnread (applyMessageCreated ibs parts c a m) u c
      = storedUnread ibs u c + recipCount parts c a u := by
  rw [applyMessageCreated_eq_upsertAll, storedUnread_upsertAll]
  rfl

/-- API response shapes relevant to the claims. -/
inductive Resp where
  | okMessage (m : Message)
  | okRead (unreadCount : Int)
  | errStatus (code : Nat)
deriving DecidableEq

/-- The database and event-log state touched by the API message
routes.  `participants` holds (conversationId, userId) rows;
`convUpdatedAt` the conversations' `updatedAt` column; `published` the
Kafka events emitted so far. -/
structure Db where
  messages : List Message
  participants : List (String × String)
  inboxes : List InboxEntry
  convUpdatedAt : List (String × Nat)
  receipts : List ReadReceipt
  published : List KEvent
deriving DecidableEq

/-- The `prisma.conversation.update` setting `updatedAt` on send. -/
def touchConv : List (String × Nat) → String → Nat → List (String × Nat)
  | [], _, _ => []
  | (v, t) :: cs, c, now => if v = c then (c, now) :: cs else (v, t) :: touchConv cs c now

/-- The send-message route (`messages.ts` router.post, lines 77-194).
Steps in source order: participant check (403 on failure); if an
`Idempotency-Key` header is present (JS truthiness: absent or empty
string skips the check) and a message with that id exists, return it
unchanged; otherwise create the message (id = key when given, else the
store-generated `freshId`), touch the conversation's `updatedAt`,
upsert the recipients' inbox rows, and publish the
`message.created` event (with `encrypted = false`,
`keyVersion = undefined`, as the source hard-codes). -/
def sendMessage (db : Db) (senderId convId body : String) (idemKey : Option String)
    (now : Nat) (freshId : String) : Db × Resp :=
  if isParticipant db.participants convId senderId then
    let key := idemKey.getD ""
    match (if key ≠ "" then db.messages.find? (fun m => m.id == key) else none) with
    | some existing => (db, .okMessage existing)
    | none =>
      let msg : Message :=
        { id := if key ≠ "" then key else freshId
          conversationId := convId
          senderId := senderId
          body := body
          createdAt := now }
      ({ db with
          messages := db.messages ++ [msg]
          convUpdatedAt := touchConv db.convUpdatedAt convId now
          inboxes := applyMessageCreated db.inboxes db.participants convId senderId msg.id
          published := db.published ++
            [KEvent.messageCreated
              { id := msg.id, conversationId := convId, senderId := senderId,
                body := body, encrypted := false, keyVersion := none, createdAt := now }] },
        .okMessage msg)
  else
    (db, .errStatus 403)

/-- Existence test mirroring `prisma.inbox.update`, which throws when
the keyed row is missing (the route's catch then answers 400). -/
def inboxHas (ibs : List InboxEntry) (u c : String) : Bool :=
  ibs.any (fun e => e.userId == u && e.conversationId == c)

/-- Pointwise update of the unique inbox row: set `unreadCount` to the
recomputed value and `lastMessageId` to the read message. -/
def inboxSetRead : List InboxEntry → String → String → Int → String → List InboxEntry
  | [], _, _, _, _ => []
  | e :: es, u, c, n, m =>
    if e.userId = u ∧ e.conversationId = c then
      { e with unreadCount := n, lastMessageId := some m } :: es
    else
      e :: inboxSetRead es u c n m

/-- The recount of `messages.ts` lines 242-248: messages of the
conversation created strictly after the read message, sent by someone
other than the reader. -/
def recomputeUnread (msgs : List Message) (convId userId : String) (afterT : Nat) : Nat :=
  (msgs.filter (fun m => m.conversationId == convId && afterT < m.createdAt
      && m.senderId != userId)).length

/-- The mark-as-read route (`messages.ts` router.post on /read, lines
197-294): participant check (403), message lookup (404), conversation
match check (400), then the unread counter is recomputed (not
decremented) and written to the inbox row, and a `message.read` event
is published.  A missing inbox row makes `prisma.inbox.update` throw,
answered as 400 with no state change.  No `read_receipts` row is
written anywhere on this path. -/
def markAsRead (db : Db) (userId convId msgId : String) (now : Nat) : Db × Resp :=
  if isParticipant db.participants convId userId then
    match db.messages.find? (fun m => m.id == msgId) with
    | none => (db, .errStatus 404)
    | some readMsg =>
      if readMsg.conversationId = convId then
        let cnt : Int := recomputeUnread db.messages convId userId readMsg.createdAt
        if inboxHas db.inboxes userId convId then
          ({ db with
              inboxes := inboxSetRead db.inboxes userId convId cnt msgId
              published := db.published ++ [KEvent.messageRead msgId convId userId now] },
            .okRead cnt)
        else (db, .errStatus 400)
      else (db, .errStatus 400)
  else
    (db, .errStatus 403)

/-- Largest element of a list of instants (orderBy createdAt desc,
take first). -/
def maxTime : List Nat → Option Nat
  | [] => none
  | x :: xs =>
    match maxTime xs with
    | none => some x
    | some y => some (max x y)

/-- The creation instant of the newest message the user has a read
receipt for in the conversation (`conversations.ts` lines 50-67:
`prisma.readReceipt.findFirst` ordered by message createdAt
descending). -/
def latestReadCreatedAt (msgs : List Message) (rrs : List ReadReceipt)
    (userId convId : String) : Option Nat :=
  maxTime ((rrs.filter (fun r => r.userId == userId)).filterMap
    (fun r => (msgs.find? (fun m => m.id == r.messageId)).bind
      (fun m => if m.conversationId == convId then some m.createdAt else none)))

/-- The unread count the conversation-listing path recomputes
(`conversations.ts` lines 69-87): with no read receipt, every message
from others counts; otherwise, messages created after the newest read
message. -/
def listUnread (msgs : List Message) (rrs : List ReadReceipt)
    (userId convId : String) : Nat :=
  match latestReadCreatedAt msgs rrs userId convId with
  | none => (msgs.filter (fun m => m.conversationId == convId && m.senderId != userId)).length
  | some t => (msgs.filter (fun m => m.conversationId == convId && t < m.createdAt
      && m.senderId != userId)).length

/-! Presence service (`apps/presence/src/index.ts`).  The Redis
keyspace `presence:<userId>` is modelled as an association list from
user id to the absolute expiry instant of the key; Redis treats a key
whose expiry has passed as nonexistent. -/

/-- Redis keyspace for `presence:*`: user id paired with the absolute
expiry instant of the key. -/
abbrev PresenceStore := List (String × Nat)

/-- First binding for a user id (keys are unique in a real keyspace). -/
def presenceLookup : PresenceStore → String → Option Nat
  | [], _ => none
  | (v, e) :: st, u => if v = u then some e else presenceLookup st u

/-- Redis EXISTS: a key counts as existing only while unexpired. -/
def redisExists (st : PresenceStore) (u : String) (now : Nat) : Bool :=
  match presenceLookup st u with
  | none => false
  | some e => now < e

/-- Redis SETEX: store the value with expiry `now + ttl`, replacing
any previous binding for the key. -/
def redisSetEx : PresenceStore → String → Nat → Nat → PresenceStore
  | [], u, ttl, now => [(u, now + ttl)]
  | (v, e) :: st, u, ttl, now =>
    if v = u then (u, now + ttl) :: st else (v, e) :: redisSetEx st u ttl now

/-- Redis KEYS presence:* — only unexpired keys are listed; a key
whose TTL has elapsed is gone from the keyspace. -/
def redisKeys (st : PresenceStore) (now : Nat) : List String :=
  (st.filter (fun p => now < p.2)).map (fun p => p.1)

/-- Redis TTL: -2 when the key does not exist (including expired),
otherwise the remaining seconds. -/
def redisTtl (st : PresenceStore) (u : String) (now : Nat) : Int :=
  match presenceLookup st u with
  | none => -2
  | some e => if now < e then (e : Int) - (now : Int) else -2

/-- Presence events published to the `presence.user.changed` topic. -/
inductive PEvent where
  | online (userId : String)
  | offline (userId : String)
deriving DecidableEq

/-- config.heartbeatTTL of the presence service: 30 seconds. -/
def heartbeatTTL : Nat := 30

/-- The /heartbeat route (`presence/index.ts` lines 70-108): read
EXISTS, then SETEX the record, and publish an online event only when
the EXISTS check saw no live record. -/
def heartbeat (st : PresenceStore) (u : String) (now : Nat) : PresenceStore × List PEvent :=
  let wasOnline := redisExists st u now
  let st₂ := redisSetEx st u heartbeatTTL now
  (st₂, if wasOnline then [] else [PEvent.online u])

/-- The periodic offline sweep `checkOfflineUsers`
(`presence/index.ts` lines 154-189): list the `presence:*` keys, and
for each one publish an offline event when its TTL reads -2. -/
def checkOfflineUsers (st : PresenceStore) (now : Nat) : List PEvent :=
  (redisKeys st now).filterMap
    (fun u => if redisTtl st u now = -2 then some (PEvent.offline u) else none)

/-! Interleaving model for two concurrent /heartbeat requests for the
same user.  Each request performs two separate shared-store
operations in sequence — the EXISTS read and the SETEX write (plus the
conditional publish) — exactly as the route does; a schedule picks
which request runs its next operation. -/

/-- Program counter of one in-flight heartbeat request. -/
inductive HbPc where
  | toCheck
  | toSet (wasOnline : Bool)
  | done
deriving DecidableEq

/-- Joint state of the store, two in-flight heartbeat requests A and
B, and the events published so far. -/
structure HbRace where
  store : PresenceStore
  pcA : HbPc
  pcB : HbPc
  emitted : List PEvent
deriving DecidableEq

/-- One atomic shared-store step of a single heartbeat request. -/
def hbStepProc (u : String) (now : Nat) (store : PresenceStore) :
    HbPc → PresenceStore × HbPc × List PEvent
  | .toCheck => (store, .toSet (redisExists store u now), [])
  | .toSet w => (redisSetEx store u heartbeatTTL now, .done,
      if w then [] else [PEvent.online u])
  | .done => (store, .done, [])

/-- Run one scheduled step: `true` advances request A, `false`
request B. -/
def hbRaceStep (u : String) (now : Nat) (s : HbRace) (pickA : Bool) : HbRace :=
  if pickA then
    let r := hbStepProc u now s.store s.pcA
    { store := r.1, pcA := r.2.1, pcB := s.pcB, emitted := s.emitted ++ r.2.2 }
  else
    let r := hbStepProc u now s.store s.pcB
    { store := r.1, pcA := s.pcA, pcB := r.2.1, emitted := s.emitted ++ r.2.2 }

/-- Run a whole schedule of interleaved steps. -/
def runHbRace (u : String) (now : Nat) (sched : List Bool) (s : HbRace) : HbRace :=
  sched.foldl (hbRaceStep u now) s

/-- Both requests poised to run against an initial store. -/
def hbRaceInit (st : PresenceStore) : HbRace :=
  { store := st, pcA := .toCheck, pcB := .toCheck, emitted := [] }

/-! WebSocket gateway (`apps/ws-gateway/src/index.ts`) and inbox
worker (`apps/inbox-worker/src/index.ts`). -/

/-- Payload of the `message:new` outbound frame
(`WsMessageNewEvent` in `packages/shared/src/types.ts`): exactly the
public fields, no encryption metadata. -/
structure WsMessageNewData where
  id : String
  conversationId : String
  senderId : String
  body : String
  createdAt : Nat
deriving DecidableEq

/-- Outbound WebSocket frames the gateway emits. -/
inductive WsFrame where
  | messageNew (d : WsMessageNewData)
  | readReceipt (messageId conversationId userId : String) (readAt : Nat)
  | presence (userId status : String)
  | typing (conversationId userId username : String) (isTyping : Bool)
  | joined (conversationId : String)
  | error (message : String)
deriving DecidableEq

/-- Delivery targets of an emit. -/
inductive Broadcast where
  | toSocket (sid : String) (f : WsFrame)
  | toRoom (room : String) (f : WsFrame)
  | toRoomExcept (sid room : String) (f : WsFrame)
  | toAll (f : WsFrame)
deriving DecidableEq

/-- Log entries of the consumers. -/
inductive LogEntry where
  | debug (tag : String)
  | warnUnknown (kind : String)
deriving DecidableEq

/-- Translation of the `message.created` branch of `handleKafkaEvent`
(`ws-gateway/src/index.ts` lines 150-166): the broadcast payload is
built from the event's id, conversationId, senderId, body and
createdAt only. -/
def messageNewFrame (d : MessageCreatedData) : WsMessageNewData :=
  { id := d.id
    conversationId := d.conversationId
    senderId := d.senderId
    body := d.body
    createdAt := d.createdAt }

/-- The gateway's Kafka consumer handler `handleKafkaEvent`
(`ws-gateway/src/index.ts` lines 147-201): a switch over the event
type with no default branch, so a `conversation.updated` event or an
event of unknown kind produces no broadcast and no log, and the
handler returns normally. -/
def wsHandleKafkaEvent : KEvent → List Broadcast × List LogEntry
  | .messageCreated d =>
      ([.toRoom ("conversation:" ++ d.conversationId) (.messageNew (messageNewFrame d))],
        [.debug "Broadcasted message:new"])
  | .messageRead mid cid uid t =>
      ([.toRoom ("conversation:" ++ cid) (.readReceipt mid cid uid t)], [])
  | .presenceChanged uid status _ =>
      ([.toAll (.presence uid status)], [])
  | .conversationUpdated .. => ([], [])
  | .unknown _ => ([], [])

/-- The inbox worker's `handleEvent`
(`inbox-worker/src/index.ts` lines 38-74): every known kind logs a
debug line and returns; the default branch logs a warning and returns.
The result is `Except.ok` exactly when the handler returns without
throwing, which it does on every branch. -/
def inboxHandleEvent : KEvent → Except String (List LogEntry)
  | .messageCreated _ => .ok [.debug "Message created event received"]
  | .messageRead .. => .ok [.debug "Message read event received"]
  | .conversationUpdated .. => .ok [.debug "Conversation updated event received"]
  | .presenceChanged .. => .ok [.debug "User presence changed"]
  | .unknown k => .ok [.warnUnknown k]

/-- Room membership as socket.io keeps it: a set of (socketId, room)
pairs; joining a room the socket is already in changes nothing. -/
def insertRoom (rooms : List (String × String)) (sid room : String) :
    List (String × String) :=
  if (sid, room) ∈ rooms then rooms else rooms ++ [(sid, room)]

/-- The gateway's join handler (`ws-gateway/src/index.ts` lines
58-90): a non-participant gets an error frame on their own socket and
no membership change; a participant joins the conversation room and
gets a joined frame. -/
def joinHandler (parts : List (String × String)) (rooms : List (String × String))
    (sid uid convId : String) : List (String × String) × List Broadcast :=
  if isParticipant parts convId uid then
    (insertRoom rooms sid ("conversation:" ++ convId),
      [.toSocket sid (.joined convId)])
  else
    (rooms, [.toSocket sid (.error "Not a participant of this conversation")])

/-- The gateway's typing handler (`ws-gateway/src/index.ts` lines
107-138): a non-participant request returns silently with no
broadcast; a participant's indicator is broadcast to the room except
the sender. -/
def typingHandler (parts : List (String × String)) (rooms : List (String × String))
    (sid uid uname convId : String) (isTyping : Bool) :
    List (String × String) × List Broadcast :=
  if isParticipant parts convId uid then
    (rooms, [.toRoomExcept sid ("conversation:" ++ convId)
      (.typing convId uid uname isTyping)])
  else
    (rooms, [])

/-! Helper lemmas. -/

theorem storedUnread_inboxSetRead (ibs : List InboxEntry) (u c : String) (n : Int)
    (m : String) (h : inboxHas ibs u c = true) :
    storedUnread (inboxSetRead ibs u c n m) u c = n := by
  induction ibs with
  | nil => simp [inboxHas] at h
  | cons e es ih =>
    by_cases he : e.userId = u ∧ e.conversationId = c
    · simp [inboxSetRead, storedUnread, he]
    · have h₂ : inboxHas es u c = true := by
        simp only [inboxHas, List.any_cons, Bool.or_eq_true, Bool.and_eq_true,
          beq_iff_eq] at h
        rcases h with h | h
        · exact absurd h he
        · simpa [inboxHas] using h
      simp [inboxSetRead, storedUnread, he, ih h₂]

theorem presenceLookup_setEx_same (st : PresenceStore) (u : String) (ttl now : Nat) :
    presenceLookup (redisSetEx st u ttl now) u = some (now + ttl) := by
  induction st with
  | nil => simp [redisSetEx, presenceLookup]
  | cons p st ih =>
    by_cases h : p.1 = u
    · simp [redisSetEx, presenceLookup, h]
    · simp [redisSetEx, presenceLookup, h, ih]

theorem presenceLookup_of_mem_nodup (st : PresenceStore) (u : String) (e : Nat)
    (hnd : st.Pairwise (fun p q => p.1 ≠ q.1)) (hm : (u, e) ∈ st) :
    presenceLookup st u = some e := by
  induction st with
  | nil => simp at hm
  | cons p st ih =>
    rcases List.mem_cons.mp hm with hm | hm
    · subst hm
      simp [presenceLookup]
    · have hne : p.1 ≠ u := (List.pairwise_cons.mp hnd).1 (u, e) hm
      simp only [presenceLookup, hne, if_neg]
      exact ih (List.pairwise_cons.mp hnd).2 hm

theorem insertRoom_idem (rooms : List (String × String)) (sid room : String) :
    insertRoom (insertRoom rooms sid room) sid room = insertRoom rooms sid room := by
  by_cases h : (sid, room) ∈ rooms
  · simp [insertRoom, h]
  · simp [insertRoom, h]

/-! Claim theorems. -/

/-- C1 counterexample: applying the same `message.created` event twice
to the inbox state is NOT a no-op the second time — with recipients
a and b of a message authored by a, applying the event twice leaves a
state different from applying it once (b's unread count is 2 instead
of 1), because the upsert increments unconditionally and no
per-recipient last-applied sequence exists. -/
theorem messageCreated_inbox_apply_not_idempotent :
    applyMessageCreated (applyMessageCreated [] [("c", "a"), ("c", "b")] "c" "a" "m")
        [("c", "a"), ("c", "b")] "c" "a" "m"
      ≠ applyMessageCreated [] [("c", "a"), ("c", "b")] "c" "a" "m" := by decide

/-- C1 amended: applying a `message.created` event adds exactly one to
the unread count of every recipient distinct from the author,
unconditionally — there is no per-recipient last-applied sequence and
no greater-than guard.  Hence applying the same event twice adds two
(the operation is not idempotent), while the final unread count is
still independent of the order in which events are applied, since each
application contributes a fixed increment. -/
theorem messageCreated_inbox_unconditional_increment (ibs : List InboxEntry)
    (parts parts₂ : List (String × String)) (c a a₂ m m₂ u : String) :
    storedUnread (applyMessageCreated ibs parts c a m) u c
        = storedUnread ibs u c + recipCount parts c a u
      ∧ storedUnread (applyMessageCreated (applyMessageCreated ibs parts c a m) parts c a m₂) u c
        = storedUnread ibs u c + 2 * recipCount parts c a u
      ∧ storedUnread
            (applyMessageCreated (applyMessageCreated ibs parts c a m) parts₂ c a₂ m₂) u c
        = storedUnread
            (applyMessageCreated (applyMessageCreated ibs parts₂ c a₂ m₂) parts c a m) u c := by
  refine ⟨storedUnread_applyMessageCreated ibs parts c a m u, ?_, ?_⟩
  · rw [storedUnread_applyMessageCreated, storedUnread_applyMessageCreated]
    ring
  · rw [storedUnread_applyMessageCreated, storedUnread_applyMessageCreated,
      storedUnread_applyMessageCreated, storedUnread_applyMessageCreated]
    ring

/-- Initial state of the C2 scenario: a conversation c with
participants a and b, both inbox rows at 0 (as conversation creation
writes them), no messages, no read receipts. -/
def scenarioDb0 : Db :=
  { messages := []
    participants := [("c", "a"), ("c", "b")]
    inboxes := [⟨"a", "c", 0, none⟩, ⟨"b", "c", 0, none⟩]
    convUpdatedAt := [("c", 0)]
    receipts := []
    published := [] }

/-- State after a sends message m1 at t = 1. -/
def scenarioDb1 : Db := (sendMessage scenarioDb0 "a" "c" "hi" none 1 "m1").1

/-- State after b marks m1 read at t = 2. -/
def scenarioDb2 : Db := (markAsRead scenarioDb1 "b" "c" "m1" 2).1

/-- C2 refuted (code bug): after a sends one message and b marks it
read, b's stored unread counter is 0, but the conversation-listing
path recomputes 1 for the same state — the read path never writes a
`read_receipts` row, so the listing's recomputation from read receipts
finds none and counts every message from others as unread.  The stored
counter and the recomputable value disagree on a reachable state. -/
theorem stored_unread_diverges_from_listing_recompute :
    storedUnread scenarioDb2.inboxes "b" "c" = 0
      ∧ listUnread scenarioDb2.messages scenarioDb2.receipts "b" "c" = 1
      ∧ scenarioDb2.receipts = [] := by decide

/-- C4: a mark-as-read request by a participant for a message that
exists and belongs to the conversation (with the requester's inbox row
present, as conversation creation guarantees) sets the stored unread
count to the recomputed number of messages of the conversation created
after the read message and authored by someone else; being the size of
a filtered list, the resulting counter is never negative. -/
theorem markAsRead_recomputes_unread (db : Db) (u c mid : String) (now : Nat)
    (rm : Message)
    (hp : isParticipant db.participants c u = true)
    (hfind : db.messages.find? (fun m => m.id == mid) = some rm)
    (hconv : rm.conversationId = c)
    (hib : inboxHas db.inboxes u c = true) :
    storedUnread (markAsRead db u c mid now).1.inboxes u c
        = (recomputeUnread db.messages c u rm.createdAt : Int)
      ∧ 0 ≤ storedUnread (markAsRead db u c mid now).1.inboxes u c
      ∧ (markAsRead db u c mid now).2
        = .okRead (recomputeUnread db.messages c u rm.createdAt) := by
  have hmain : storedUnread (markAsRead db u c mid now).1.inboxes u c
      = (recomputeUnread db.messages c u rm.createdAt : Int) := by
    simp only [markAsRead, hp, hfind, hconv, hib, if_true, if_pos]
    exact storedUnread_inboxSetRead db.inboxes u c _ mid hib
  refine ⟨hmain, ?_, ?_⟩
  · rw [hmain]
    exact Int.ofNat_nonneg _
  · simp only [markAsRead, hp, hfind, hconv, hib, if_true, if_pos]

/-- C4 witness: in a database where a sent m1 at t = 1 and b's inbox
row reads 5, b's mark-as-read of m1 recomputes the counter to 0. -/
theorem markAsRead_recomputes_unread_witness :
    storedUnread (markAsRead
          ⟨[⟨"m1", "c", "a", "hi", 1⟩], [("c", "a"), ("c", "b")],
            [⟨"b", "c", 5, none⟩], [("c", 0)], [], []⟩
          "b" "c" "m1" 2).1.inboxes "b" "c"
        = (recomputeUnread [⟨"m1", "c", "a", "hi", 1⟩] "c" "b" 1 : Int)
      ∧ 0 ≤ storedUnread (markAsRead
          ⟨[⟨"m1", "c", "a", "hi", 1⟩], [("c", "a"), ("c", "b")],
            [⟨"b", "c", 5, none⟩], [("c", 0)], [], []⟩
          "b" "c" "m1" 2).1.inboxes "b" "c"
      ∧ (markAsRead
          ⟨[⟨"m1", "c", "a", "hi", 1⟩], [("c", "a"), ("c", "b")],
            [⟨"b", "c", 5, none⟩], [("c", 0)], [], []⟩
          "b" "c" "m1" 2).2
        = .okRead (recomputeUnread [⟨"m1", "c", "a", "hi", 1⟩] "c" "b" 1) :=
  markAsRead_recomputes_unread
    ⟨[⟨"m1", "c", "a", "hi", 1⟩], [("c", "a"), ("c", "b")],
      [⟨"b", "c", 5, none⟩], [("c", 0)], [], []⟩
    "b" "c" "m1" 2 ⟨"m1", "c", "a", "hi", 1⟩
    (by decide) (by decide) (by decide) (by decide)

/-- C3 refuted (code bug): the offline sweep never emits anything.
For every keyspace with unique keys and every sweep instant,
`checkOfflineUsers` emits no event: KEYS lists only unexpired keys,
so the subsequent TTL read of a listed key can never be -2 and the
emit branch is unreachable.  In particular (second conjunct), after a
single heartbeat at t = 0 with horizon 30, the sweep at t = 50 — where
the claim demands exactly one offline event — emits none: the expired
key is simply absent from the keyspace. -/
theorem offline_sweep_never_emits :
    (∀ (st : PresenceStore) (now : Nat),
        st.Pairwise (fun p q => p.1 ≠ q.1) → checkOfflineUsers st now = [])
      ∧ checkOfflineUsers (heartbeat [] "u" 0).1 50 = [] := by
  constructor
  · intro st now hnd
    unfold checkOfflineUsers
    rw [List.filterMap_eq_nil_iff]
    intro u hu
    obtain ⟨p, hp, hpu⟩ := List.mem_map.mp hu
    obtain ⟨hpm, hlt⟩ := List.mem_filter.mp hp
    have hlook : presenceLookup st u = some p.2 := by
      apply presenceLookup_of_mem_nodup st u p.2 hnd
      rw [← hpu]
      exact hpm
    have hlt₂ : now < p.2 := by simpa using hlt
    have httl : redisTtl st u now = (p.2 : Int) - (now : Int) := by
      simp [redisTtl, hlook, hlt₂]
    rw [httl]
    have : (p.2 : Int) - (now : Int) ≠ -2 := by omega
    simp [this]
  · decide

/-- C3 witness: a keyspace holding one record for u expiring at 30,
swept at t = 50, yields no offline event. -/
theorem offline_sweep_never_emits_witness :
    checkOfflineUsers [("u", 30)] 50 = [] :=
  offline_sweep_never_emits.1 [("u", 30)] 50 (by simp)

/-- C5: a heartbeat publishes a `presence.changed{online}` event
exactly when no unexpired presence record exists at its arrival (the
EXISTS check fails), and publishes nothing otherwise; in both cases
the record is refreshed to expire a full horizon after the heartbeat. -/
theorem heartbeat_online_transition_characterization (st : PresenceStore)
    (u : String) (now : Nat) :
    (heartbeat st u now).2 = (if redisExists st u now then [] else [PEvent.online u])
      ∧ presenceLookup (heartbeat st u now).1 u = some (now + heartbeatTTL) :=
  ⟨rfl, presenceLookup_setEx_same st u heartbeatTTL now⟩

/-- C6 refuted (code bug): the heartbeat's EXISTS check and SETEX
write are two separate shared-store operations, not one atomic
check-and-set.  Under the interleaving in which both concurrent
requests run their EXISTS before either runs its SETEX, both observe
the Offline-to-Online transition and two online events are published
(first conjunct); only fully serialized schedules give the single
event the claim requires (second conjunct). -/
theorem concurrent_heartbeats_emit_duplicate_online :
    (runHbRace "u" 0 [true, false, true, false] (hbRaceInit [])).emitted
        = [PEvent.online "u", PEvent.online "u"]
      ∧ (runHbRace "u" 0 [true, true, false, false] (hbRaceInit [])).emitted
        = [PEvent.online "u"] := by decide

/-- C7: the gateway's broadcast for a `message.created` event is a
function of the public fields alone — the frame type carries exactly
id, conversationId, senderId, body and createdAt — so two events
differing only in the encryption metadata (`encrypted`, `keyVersion`)
produce identical broadcasts and logs. -/
theorem message_frame_independent_of_encryption_metadata
    (d : MessageCreatedData) (b : Bool) (k : Option Nat) :
    wsHandleKafkaEvent (.messageCreated { d with encrypted := b, keyVersion := k })
      = wsHandleKafkaEvent (.messageCreated d) := rfl

/-- C8: a join or typing request from a user who is not a participant
of the target conversation changes no room membership and broadcasts
nothing — the join is answered with an error frame on the requesting
socket only, the typing request is dropped silently; and joining a
room the connection has already joined leaves the membership state
unchanged (idempotent). -/
theorem gateway_nonparticipant_rejected_and_join_idempotent
    (parts rooms : List (String × String)) (sid uid uname convId : String)
    (ty : Bool) :
    (isParticipant parts convId uid = false →
        joinHandler parts rooms sid uid convId
            = (rooms, [.toSocket sid (.error "Not a participant of this conversation")])
          ∧ typingHandler parts rooms sid uid uname convId ty = (rooms, []))
      ∧ (joinHandler parts (joinHandler parts rooms sid uid convId).1 sid uid convId).1
        = (joinHandler parts rooms sid uid convId).1 := by
  constructor
  · intro h
    exact ⟨by simp [joinHandler, h], by simp [typingHandler, h]⟩
  · by_cases h : isParticipant parts convId uid = true
    · simp [joinHandler, h, insertRoom_idem]
    · simp only [Bool.not_eq_true] at h
      simp [joinHandler, h]

/-- C8 witness: bob is not a participant of c1, so his join is
answered with an error frame on his own socket and his typing request
is dropped, with no membership change in either case. -/
theorem gateway_nonparticipant_rejected_witness :
    joinHandler [("c1", "alice")] [] "s1" "bob" "c1"
        = ([], [.toSocket "s1" (.error "Not a participant of this conversation")])
      ∧ typingHandler [("c1", "alice")] [] "s1" "bob" "bobby" "c1" true = ([], []) :=
  (gateway_nonparticipant_rejected_and_join_idempotent
    [("c1", "alice")] [] "s1" "bob" "bobby" "c1" true).1 (by decide)

/-- C9 counterexample: the gateway's Kafka handler has no default
branch — an event of unknown kind produces no log entry at all (and no
broadcast), refuting the part of the claim that says the consumer logs
unrecognized events; it still returns normally. -/
theorem gateway_unknown_event_not_logged :
    (wsHandleKafkaEvent (.unknown "mystery.kind")).2 = []
      ∧ (wsHandleKafkaEvent (.unknown "mystery.kind")).1 = [] := ⟨rfl, rfl⟩

/-- C9 amended: an event of unknown kind never blocks its partition —
both consumers' handlers return normally on it.  The inbox worker logs
a warning and acknowledges; the WebSocket gateway acknowledges it
silently, without logging and without broadcasting. -/
theorem unknown_event_acknowledged_without_blocking (k : String) :
    inboxHandleEvent (.unknown k) = .ok [.warnUnknown k]
      ∧ wsHandleKafkaEvent (.unknown k) = ([], []) := ⟨rfl, rfl⟩

/-- C10: a send-message request by a participant whose Idempotency-Key
header (non-empty, as every stored id is) equals the id of an
already-stored message returns that message unchanged and performs no
state change at all: the database — messages, conversation timestamps,
inbox counters — and the published-event log are exactly as before. -/
theorem sendMessage_idempotency_key_noop (db : Db) (u c b k : String) (now : Nat)
    (fid : String) (m : Message)
    (hp : isParticipant db.participants c u = true)
    (hk : k ≠ "")
    (hfind : db.messages.find? (fun msg => msg.id == k) = some m) :
    sendMessage db u c b (some k) now fid = (db, .okMessage m) := by
  simp [sendMessage, hp, hk, hfind]

/-- C10 witness: retrying the send of the stored message m1 with
Idempotency-Key m1 returns it and leaves the whole state unchanged. -/
theorem sendMessage_idempotency_key_noop_witness :
    sendMessage
        ⟨[⟨"m1", "c", "a", "hi", 1⟩], [("c", "a"), ("c", "b")],
          [⟨"b", "c", 1, some "m1"⟩], [("c", 1)], [], []⟩
        "a" "c" "hello again" (some "m1") 9 "fresh"
      = (⟨[⟨"m1", "c", "a", "hi", 1⟩], [("c", "a"), ("c", "b")],
          [⟨"b", "c", 1, some "m1"⟩], [("c", 1)], [], []⟩,
        .okMessage ⟨"m1", "c", "a", "hi", 1⟩) :=
  sendMessage_idempotency_key_noop
    ⟨[⟨"m1", "c", "a", "hi", 1⟩], [("c", "a"), ("c", "b")],
      [⟨"b", "c", 1, some "m1"⟩], [("c", 1)], [], []⟩
    "a" "c" "hello again" "m1" 9 "fresh" ⟨"m1", "c", "a", "hi", 1⟩
    (by decide) (by decide) (by decide)

end ChatCore
